import Mathlib

/-!
Verification development for the `custom_search_mcp` repository
(`src/server.py`): a thin adapter that forwards one search request to the
Google Custom Search API and normalises the JSON answer.

The embedding below translates the Python source into Lean:
  * decoded JSON values are the inductive `Json`; Python `dict.get` is
    `dictGet` / `dictGetD` over association lists with unique keys (as
    produced by Python's JSON decoder);
  * the builtin `int(x)` applied to a decoded-JSON value is `pyInt`
    (`none` models the `ValueError` / `TypeError` raise);
  * module initialisation (`server.py` lines 12-18) is `moduleInit`;
  * the outbound parameter dict built in lines 55-66 is `buildParams`;
  * the per-item projection of lines 74-82 is `projectItem` / `mapProject`;
  * the `totalResults` extraction of line 86 is `extractTotalResults`;
  * the whole tool body (lines 55-89) is `google_search`, parameterised by
    an HTTP transport `http : String → List (String × PVal) → HttpResponse`
    standing for the single outbound GET; `handleResponse` is the part
    after the GET returns.
Raised Python exceptions are modelled with `Except`.
-/

/-- A decoded JSON value (the result of `r.json()` in the source). Numbers
are modelled as integers; the upstream fields the source touches are
strings, objects, and arrays. -/
inductive Json where
  | null : Json
  | bool : Bool → Json
  | num : Int → Json
  | str : String → Json
  | arr : List Json → Json
  | obj : List (String × Json) → Json

/-- Python `d.get(k)` on a dict decoded from JSON: the value bound to the
key, or `none` when the key is absent. Keys are unique in a decoded dict,
so first-match lookup is exact. -/
def dictGet : List (String × Json) → String → Option Json
  | [], _ => none
  | p :: rest, k => if p.1 = k then some p.2 else dictGet rest k

/-- Python `d.get(k, default)`. -/
def dictGetD (fs : List (String × Json)) (k : String) (d : Json) : Json :=
  (dictGet fs k).getD d

/-- Whitespace stripped by Python `int(str)` before parsing. -/
def isPyWs (c : Char) : Bool :=
  c = ' ' || c = '\t' || c = '\n' || c = '\r' || c = '\x0b' || c = '\x0c'

/-- Strip leading and trailing whitespace, as Python `int(str)` does. -/
def stripPyWs (cs : List Char) : List Char :=
  ((cs.dropWhile isPyWs).reverse.dropWhile isPyWs).reverse

/-- Numeric value of a decimal digit character. -/
def digitVal (c : Char) : Nat := c.toNat - 48

/-- No two consecutive underscores (Python digit grouping rule). -/
def noDoubleUnderscore : List Char → Bool
  | c1 :: c2 :: rest =>
    if c1 = '_' then
      if c2 = '_' then false else noDoubleUnderscore (c2 :: rest)
    else noDoubleUnderscore (c2 :: rest)
  | _ => true

/-- A digit run accepted by Python `int(str)` after the optional sign:
nonempty, decimal digits with single underscores allowed between digits
(no leading, trailing, or doubled underscore). -/
def validDigits (cs : List Char) : Bool :=
  !cs.isEmpty &&
  cs.all (fun c => c.isDigit || c == '_') &&
  cs.head?.all (fun c => c != '_') &&
  cs.getLast?.all (fun c => c != '_') &&
  noDoubleUnderscore cs

/-- Decimal value of a digit run (underscores ignored). -/
def digitsVal (cs : List Char) : Nat :=
  (cs.filter Char.isDigit).foldl (fun a c => a * 10 + digitVal c) 0

/-- Python `int(s)` for a string `s`: optional surrounding whitespace, an
optional sign, then a digit run; `none` models the `ValueError` raise. -/
def pyIntOfString (s : String) : Option Int :=
  match stripPyWs s.toList with
  | '+' :: rest => if validDigits rest then some (Int.ofNat (digitsVal rest)) else none
  | '-' :: rest => if validDigits rest then some (-(Int.ofNat (digitsVal rest))) else none
  | rest => if validDigits rest then some (Int.ofNat (digitsVal rest)) else none

/-- Python `int(x)` on a decoded-JSON value: integers pass through,
strings are parsed, booleans convert; `null`, arrays and objects raise
`TypeError` (modelled as `none`, like the unparseable-string raise). -/
def pyInt : Json → Option Int
  | Json.num n => some n
  | Json.str s => pyIntOfString s
  | Json.bool b => some (if b then 1 else 0)
  | _ => none

/-- The process environment as seen by `os.getenv` at lines 14-15:
`none` when a variable is absent. -/
structure Env where
  googleApiKey : Option String
  googleCseId : Option String

/-- Python truthiness of an `Optional[str]`: `None` and `""` are falsy. -/
def truthyOptStr : Option String → Bool
  | none => false
  | some s => !s.isEmpty

/-- The configuration held by the module after a successful start:
`GOOGLE_API_KEY` and `GOOGLE_CSE_ID`. -/
structure Config where
  apiKey : String
  cseId : String

/-- The `RuntimeError` raised at line 18 when configuration is missing. -/
inductive StartupError where
  | missingConfig : StartupError

/-- Module initialisation, `server.py` lines 12-18: read both environment
variables and raise `RuntimeError` unless both are truthy. Only on success
is the MCP server object of line 21 created, so no request is ever
accepted after the error. -/
def moduleInit (env : Env) : Except StartupError Config :=
  if truthyOptStr env.googleApiKey && truthyOptStr env.googleCseId then
    Except.ok { apiKey := env.googleApiKey.getD "", cseId := env.googleCseId.getD "" }
  else
    Except.error StartupError.missingConfig

/-- The arguments of the `google_search` tool (lines 42-50), with the
Python default values. Optional parameters are `Option String`, `none`
standing for Python `None`. -/
structure SearchRequest where
  query : String
  num : Int := 5
  start : Int := 1
  safe : String := "off"
  lr : Option String := none
  gl : Option String := none
  cr : Option String := none
  siteSearch : Option String := none

/-- A value in the outbound query-parameter dict: the source stores both
strings and integers in `params`. -/
inductive PVal where
  | s : String → PVal
  | i : Int → PVal
deriving DecidableEq

/-- One conditional insertion `if x: params[name] = x` (lines 63-66):
the entry is added only when the optional string is truthy. -/
def optEntry (name : String) (v : Option String) : List (String × PVal) :=
  match v with
  | some s => if s = "" then [] else [(name, PVal.s s)]
  | none => []

/-- The six unconditional entries of the `params` dict (lines 55-62). -/
def baseParams (cfg : Config) (req : SearchRequest) : List (String × PVal) :=
  [("key", PVal.s cfg.apiKey), ("cx", PVal.s cfg.cseId), ("q", PVal.s req.query),
   ("num", PVal.i req.num), ("start", PVal.i req.start), ("safe", PVal.s req.safe)]

/-- The full outbound query-parameter dict (lines 55-66), in insertion
order: the six unconditional entries followed by the conditional ones. -/
def buildParams (cfg : Config) (req : SearchRequest) : List (String × PVal) :=
  baseParams cfg req ++ (optEntry "lr" req.lr ++ (optEntry "gl" req.gl ++
    (optEntry "cr" req.cr ++ optEntry "siteSearch" req.siteSearch)))

/-- Dict lookup in the parameter dict (unique keys, insertion order). -/
def lookupParam (k : String) : List (String × PVal) → Option PVal
  | [] => none
  | p :: rest => if p.1 = k then some p.2 else lookupParam k rest

/-- The fixed outbound endpoint (line 69). -/
def searchUrl : String := "https://www.googleapis.com/customsearch/v1"

/-- The answer of the outbound GET: HTTP status and decoded JSON body. -/
structure HttpResponse where
  status : Nat
  body : Json

/-- One entry of the compact result list (lines 75-80): each field holds
the JSON value found upstream, or `none` when the upstream item lacks the
key (Python `it.get(...)` returning `None`). -/
structure SearchResultItem where
  title : Option Json
  link : Option Json
  snippet : Option Json
  displayLink : Option Json

/-- The dict returned by `google_search` (lines 84-89). -/
structure SearchResponse where
  query : String
  totalResults : Int
  results : List SearchResultItem
  nextStart : Option Int

/-- The exceptions `google_search` can raise: the `httpx.HTTPStatusError`
of `raise_for_status()` (carrying the upstream status and body), the
`AttributeError`/`TypeError` raises on JSON values of unexpected shape,
and the `ValueError`/`TypeError` raise of `int(...)` at line 86. -/
inductive SearchError where
  | upstream : Nat → Json → SearchError
  | typeError : SearchError
  | valueError : SearchError

/-- Projection of one upstream item (lines 75-80): `it.get` on each of the
four keys. A non-dict item would make `it.get` raise `AttributeError`. -/
def projectItem : Json → Except SearchError SearchResultItem
  | Json.obj fs =>
    Except.ok { title := dictGet fs "title", link := dictGet fs "link",
                snippet := dictGet fs "snippet", displayLink := dictGet fs "displayLink" }
  | _ => Except.error SearchError.typeError

/-- The list comprehension of lines 74-82: project the items in order,
propagating the first raise. -/
def mapProject : List Json → Except SearchError (List SearchResultItem)
  | [] => Except.ok []
  | it :: rest =>
    match projectItem it with
    | Except.error e => Except.error e
    | Except.ok head =>
      match mapProject rest with
      | Except.error e => Except.error e
      | Except.ok tail => Except.ok (head :: tail)

/-- Line 86: `int(data.get("searchInformation", {}).get("totalResults", 0))`.
A non-dict `searchInformation` value makes `.get` raise; an `int(...)`
failure raises `ValueError`. -/
def extractTotalResults (dataFs : List (String × Json)) : Except SearchError Int :=
  match dictGetD dataFs "searchInformation" (Json.obj []) with
  | Json.obj siFs =>
    match pyInt (dictGetD siFs "totalResults" (Json.num 0)) with
    | some n => Except.ok n
    | none => Except.error SearchError.valueError
  | _ => Except.error SearchError.typeError

/-- Lines 70-89, after the GET has returned `r`: `raise_for_status()`
raises on every non-2xx status; on success the body is read as a dict,
`items` defaults to the empty list, the items are projected in order,
`totalResults` is extracted, and `nextStart` is `start + num` exactly when
the number of projected results equals `num`. -/
def handleResponse (req : SearchRequest) (r : HttpResponse) :
    Except SearchError SearchResponse :=
  if 200 ≤ r.status ∧ r.status < 300 then
    match r.body with
    | Json.obj dataFs =>
      match dictGetD dataFs "items" (Json.arr []) with
      | Json.arr itemsList =>
        match mapProject itemsList with
        | Except.ok results =>
          match extractTotalResults dataFs with
          | Except.ok tr =>
            Except.ok { query := req.query, totalResults := tr, results := results,
                        nextStart := if (results.length : Int) = req.num
                                     then some (req.start + req.num) else none }
          | Except.error e => Except.error e
        | Except.error e => Except.error e
      | _ => Except.error SearchError.typeError
    | _ => Except.error SearchError.typeError
  else
    Except.error (SearchError.upstream r.status r.body)

/-- The `google_search` tool body (lines 42-89): build the parameter dict,
issue the single outbound GET to the fixed endpoint through the transport
`http`, and transform the answer. -/
def google_search (cfg : Config) (req : SearchRequest)
    (http : String → List (String × PVal) → HttpResponse) :
    Except SearchError SearchResponse :=
  handleResponse req (http searchUrl (buildParams cfg req))

/-! ## Helper lemmas about parameter-dict lookup -/

/-- Lookup skips a prefix in which the key is absent. -/
lemma lookupParam_append_none (k : String) (xs ys : List (String × PVal))
    (h : lookupParam k xs = none) : lookupParam k (xs ++ ys) = lookupParam k ys := by
  induction xs with
  | nil => rfl
  | cons p rest ih =>
    by_cases hp : p.1 = k
    · simp [lookupParam, hp] at h
    · simp only [List.cons_append, lookupParam, hp, if_false] at *
      exact ih h

/-- Lookup is decided by a prefix that binds the key. -/
lemma lookupParam_append_some (k : String) (xs ys : List (String × PVal)) (v : PVal)
    (h : lookupParam k xs = some v) : lookupParam k (xs ++ ys) = some v := by
  induction xs with
  | nil => simp [lookupParam] at h
  | cons p rest ih =>
    by_cases hp : p.1 = k
    · simp only [lookupParam, hp, if_true] at h
      simp only [List.cons_append, lookupParam, hp, if_true]
      exact h
    · simp only [lookupParam, hp, if_false] at h
      simp only [List.cons_append, lookupParam, hp, if_false]
      exact ih h

/-- A conditional entry for another key never answers a lookup. -/
lemma lookupParam_optEntry_ne (k n : String) (v : Option String) (h : ¬ n = k) :
    lookupParam k (optEntry n v) = none := by
  cases v with
  | none => rfl
  | some s =>
    by_cases hs : s = "" <;> simp [optEntry, lookupParam, hs, h]

/-- In the base dict none of the four optional keys is bound. -/
lemma lookupParam_base_opt (cfg : Config) (req : SearchRequest) :
    lookupParam "lr" (baseParams cfg req) = none ∧
    lookupParam "gl" (baseParams cfg req) = none ∧
    lookupParam "cr" (baseParams cfg req) = none ∧
    lookupParam "siteSearch" (baseParams cfg req) = none :=
  ⟨rfl, rfl, rfl, rfl⟩

/-- A falsy `lr` (absent or empty) leaves no `lr` entry in the dict. -/
lemma lookup_buildParams_lr_omitted (cfg : Config) (req : SearchRequest)
    (h : optEntry "lr" req.lr = []) :
    lookupParam "lr" (buildParams cfg req) = none := by
  unfold buildParams
  rw [lookupParam_append_none _ _ _ (lookupParam_base_opt cfg req).1, h, List.nil_append]
  rw [lookupParam_append_none _ _ _ (lookupParam_optEntry_ne "lr" "gl" req.gl (by decide))]
  rw [lookupParam_append_none _ _ _ (lookupParam_optEntry_ne "lr" "cr" req.cr (by decide))]
  exact lookupParam_optEntry_ne "lr" "siteSearch" req.siteSearch (by decide)

/-- A truthy `lr` is sent verbatim. -/
lemma lookup_buildParams_lr_included (cfg : Config) (req : SearchRequest) (v : String)
    (h : req.lr = some v) (hv : ¬ v = "") :
    lookupParam "lr" (buildParams cfg req) = some (PVal.s v) := by
  unfold buildParams
  rw [lookupParam_append_none _ _ _ (lookupParam_base_opt cfg req).1, h]
  have he : optEntry "lr" (some v) = [("lr", PVal.s v)] := by simp [optEntry, hv]
  rw [he]
  exact lookupParam_append_some _ _ _ _ (by simp [lookupParam])

/-- A falsy `gl` (absent or empty) leaves no `gl` entry in the dict. -/
lemma lookup_buildParams_gl_omitted (cfg : Config) (req : SearchRequest)
    (h : optEntry "gl" req.gl = []) :
    lookupParam "gl" (buildParams cfg req) = none := by
  unfold buildParams
  rw [lookupParam_append_none _ _ _ (lookupParam_base_opt cfg req).2.1]
  rw [lookupParam_append_none _ _ _ (lookupParam_optEntry_ne "gl" "lr" req.lr (by decide))]
  rw [h, List.nil_append]
  rw [lookupParam_append_none _ _ _ (lookupParam_optEntry_ne "gl" "cr" req.cr (by decide))]
  exact lookupParam_optEntry_ne "gl" "siteSearch" req.siteSearch (by decide)

/-- A truthy `gl` is sent verbatim. -/
lemma lookup_buildParams_gl_included (cfg : Config) (req : SearchRequest) (v : String)
    (h : req.gl = some v) (hv : ¬ v = "") :
    lookupParam "gl" (buildParams cfg req) = some (PVal.s v) := by
  unfold buildParams
  rw [lookupParam_append_none _ _ _ (lookupParam_base_opt cfg req).2.1]
  rw [lookupParam_append_none _ _ _ (lookupParam_optEntry_ne "gl" "lr" req.lr (by decide))]
  rw [h]
  have he : optEntry "gl" (some v) = [("gl", PVal.s v)] := by simp [optEntry, hv]
  rw [he]
  exact lookupParam_append_some _ _ _ _ (by simp [lookupParam])

/-- A falsy `cr` (absent or empty) leaves no `cr` entry in the dict. -/
lemma lookup_buildParams_cr_omitted (cfg : Config) (req : SearchRequest)
    (h : optEntry "cr" req.cr = []) :
    lookupParam "cr" (buildParams cfg req) = none := by
  unfold buildParams
  rw [lookupParam_append_none _ _ _ (lookupParam_base_opt cfg req).2.2.1]
  rw [lookupParam_append_none _ _ _ (lookupParam_optEntry_ne "cr" "lr" req.lr (by decide))]
  rw [lookupParam_append_none _ _ _ (lookupParam_optEntry_ne "cr" "gl" req.gl (by decide))]
  rw [h, List.nil_append]
  exact lookupParam_optEntry_ne "cr" "siteSearch" req.siteSearch (by decide)

/-- A truthy `cr` is sent verbatim. -/
lemma lookup_buildParams_cr_included (cfg : Config) (req : SearchRequest) (v : String)
    (h : req.cr = some v) (hv : ¬ v = "") :
    lookupParam "cr" (buildParams cfg req) = some (PVal.s v) := by
  unfold buildParams
  rw [lookupParam_append_none _ _ _ (lookupParam_base_opt cfg req).2.2.1]
  rw [lookupParam_append_none _ _ _ (lookupParam_optEntry_ne "cr" "lr" req.lr (by decide))]
  rw [lookupParam_append_none _ _ _ (lookupParam_optEntry_ne "cr" "gl" req.gl (by decide))]
  rw [h]
  have he : optEntry "cr" (some v) = [("cr", PVal.s v)] := by simp [optEntry, hv]
  rw [he]
  exact lookupParam_append_some _ _ _ _ (by simp [lookupParam])

/-- A falsy `siteSearch` (absent or empty) leaves no `siteSearch` entry. -/
lemma lookup_buildParams_site_omitted (cfg : Config) (req : SearchRequest)
    (h : optEntry "siteSearch" req.siteSearch = []) :
    lookupParam "siteSearch" (buildParams cfg req) = none := by
  unfold buildParams
  rw [lookupParam_append_none _ _ _ (lookupParam_base_opt cfg req).2.2.2]
  rw [lookupParam_append_none _ _ _
    (lookupParam_optEntry_ne "siteSearch" "lr" req.lr (by decide))]
  rw [lookupParam_append_none _ _ _
    (lookupParam_optEntry_ne "siteSearch" "gl" req.gl (by decide))]
  rw [lookupParam_append_none _ _ _
    (lookupParam_optEntry_ne "siteSearch" "cr" req.cr (by decide))]
  rw [h]
  rfl

/-- A truthy `siteSearch` is sent verbatim. -/
lemma lookup_buildParams_site_included (cfg : Config) (req : SearchRequest) (v : String)
    (h : req.siteSearch = some v) (hv : ¬ v = "") :
    lookupParam "siteSearch" (buildParams cfg req) = some (PVal.s v) := by
  unfold buildParams
  rw [lookupParam_append_none _ _ _ (lookupParam_base_opt cfg req).2.2.2]
  rw [lookupParam_append_none _ _ _
    (lookupParam_optEntry_ne "siteSearch" "lr" req.lr (by decide))]
  rw [lookupParam_append_none _ _ _
    (lookupParam_optEntry_ne "siteSearch" "gl" req.gl (by decide))]
  rw [lookupParam_append_none _ _ _
    (lookupParam_optEntry_ne "siteSearch" "cr" req.cr (by decide))]
  rw [h]
  simp [optEntry, lookupParam, hv]

/-! ## Helper lemmas about the response transformation -/

/-- A successful projection yields one output entry per input item. -/
lemma mapProject_ok_length (xs : List Json) (ys : List SearchResultItem)
    (h : mapProject xs = Except.ok ys) : ys.length = xs.length := by
  induction xs generalizing ys with
  | nil =>
    simp only [mapProject] at h
    injection h with h
    subst h
    rfl
  | cons it rest ih =>
    unfold mapProject at h
    split at h
    · exact Except.noConfusion h
    · split at h
      · exact Except.noConfusion h
      · rename_i tail ht
        injection h with h
        rw [h.symm]
        simp [ih tail ht]

/-- A successful projection is positionwise: output `i` is the projection
of input `i`. -/
lemma mapProject_ok_get (xs : List Json) (ys : List SearchResultItem)
    (h : mapProject xs = Except.ok ys) :
    ∀ (i : Nat) (hi : i < xs.length) (hi2 : i < ys.length),
      projectItem (xs.get ⟨i, hi⟩) = Except.ok (ys.get ⟨i, hi2⟩) := by
  induction xs generalizing ys with
  | nil =>
    intro i hi hi2
    exact absurd hi (by simp)
  | cons it rest ih =>
    unfold mapProject at h
    split at h
    · exact Except.noConfusion h
    · rename_i head hp
      split at h
      · exact Except.noConfusion h
      · rename_i tail ht
        injection h with h
        subst h
        intro i hi hi2
        cases i with
        | zero => simpa using hp
        | succ n => exact ih tail ht n (by simpa using hi) (by simpa using hi2)

/-- Inversion of a successful run of `handleResponse`: the status was 2xx,
the body was a JSON object, `items` defaulted to a JSON array whose
elements all projected, `totalResults` extracted, and the answer is the
assembled record. -/
lemma handleResponse_ok (req : SearchRequest) (r : HttpResponse) (resp : SearchResponse)
    (h : handleResponse req r = Except.ok resp) :
    (200 ≤ r.status ∧ r.status < 300) ∧
    ∃ dataFs itemsList results tr,
      r.body = Json.obj dataFs ∧
      dictGetD dataFs "items" (Json.arr []) = Json.arr itemsList ∧
      mapProject itemsList = Except.ok results ∧
      extractTotalResults dataFs = Except.ok tr ∧
      resp = { query := req.query, totalResults := tr, results := results,
               nextStart := if (results.length : Int) = req.num
                            then some (req.start + req.num) else none } := by
  unfold handleResponse at h
  split at h
  case isFalse => exact Except.noConfusion h
  case isTrue hst =>
    split at h <;> try exact Except.noConfusion h
    rename_i dataFs heqBody
    split at h <;> try exact Except.noConfusion h
    rename_i itemsList heqItems
    split at h <;> try exact Except.noConfusion h
    rename_i results heqMap
    split at h <;> try exact Except.noConfusion h
    rename_i tr heqTr
    injection h with h
    exact ⟨hst, dataFs, itemsList, results, tr, heqBody, heqItems, heqMap, heqTr, h.symm⟩

/-! ## Claims -/

/-- C1: for every successful execution of `google_search`, the returned
`nextStart` equals `start + num` exactly when the number of projected
results equals the requested `num`, and is absent otherwise. -/
theorem C1_nextStart_iff_full_page (cfg : Config) (req : SearchRequest)
    (http : String → List (String × PVal) → HttpResponse) (resp : SearchResponse)
    (h : google_search cfg req http = Except.ok resp) :
    resp.nextStart = if (resp.results.length : Int) = req.num
                     then some (req.start + req.num) else none := by
  unfold google_search at h
  obtain ⟨-, dataFs, itemsList, results, tr, -, -, -, -, hresp⟩ :=
    handleResponse_ok req _ resp h
  subst hresp
  rfl

/-- Witness for C1: a 2xx answer with one item under `num = 1` yields
`nextStart = 2`, matching the stated rule. -/
theorem C1_witness :
    ({ query := "rust", totalResults := 0,
       results := [⟨some (Json.str "t"), none, none, none⟩],
       nextStart := some 2 } : SearchResponse).nextStart =
      if ((({ query := "rust", totalResults := 0,
              results := [⟨some (Json.str "t"), none, none, none⟩],
              nextStart := some 2 } : SearchResponse).results.length : Int) = 1)
      then some (1 + 1) else none :=
  C1_nextStart_iff_full_page ⟨"k", "c"⟩ { query := "rust", num := 1 }
    (fun _ _ => ⟨200, Json.obj [("items", Json.arr [Json.obj [("title", Json.str "t")]])]⟩)
    { query := "rust", totalResults := 0,
      results := [⟨some (Json.str "t"), none, none, none⟩], nextStart := some 2 }
    rfl

/-- C4: a non-2xx upstream status makes `google_search` abort with an
upstream error carrying that status (and the body); no response record is
produced. -/
theorem C4_non2xx_aborts (cfg : Config) (req : SearchRequest)
    (http : String → List (String × PVal) → HttpResponse)
    (h : (http searchUrl (buildParams cfg req)).status < 200 ∨
         300 ≤ (http searchUrl (buildParams cfg req)).status) :
    google_search cfg req http =
      Except.error (SearchError.upstream (http searchUrl (buildParams cfg req)).status
        (http searchUrl (buildParams cfg req)).body) := by
  unfold google_search handleResponse
  have hc : ¬ (200 ≤ (http searchUrl (buildParams cfg req)).status ∧
      (http searchUrl (buildParams cfg req)).status < 300) := by omega
  rw [if_neg hc]

/-- Witness for C4: an upstream 403 yields the upstream error. -/
theorem C4_witness :
    google_search ⟨"k", "c"⟩ { query := "q" } (fun _ _ => ⟨403, Json.null⟩) =
      Except.error (SearchError.upstream 403 Json.null) :=
  C4_non2xx_aborts ⟨"k", "c"⟩ { query := "q" } (fun _ _ => ⟨403, Json.null⟩)
    (Or.inr (by norm_num))

/-- C5: projecting an upstream item never raises and maps each of the
four fields to the upstream value, hence to `none` whenever the upstream
item lacks the key (shown for `displayLink` in the second part). -/
theorem C5_item_projection_defaults (fs : List (String × Json)) :
    projectItem (Json.obj fs) =
      Except.ok { title := dictGet fs "title", link := dictGet fs "link",
                  snippet := dictGet fs "snippet", displayLink := dictGet fs "displayLink" } ∧
    (dictGet fs "displayLink" = none →
      projectItem (Json.obj fs) =
        Except.ok { title := dictGet fs "title", link := dictGet fs "link",
                    snippet := dictGet fs "snippet", displayLink := none }) := by
  refine ⟨rfl, fun h => ?_⟩
  simp only [projectItem, h]

/-- Witness for C5: an item lacking `displayLink` yields `displayLink`
absent, without error. -/
theorem C5_witness :
    projectItem (Json.obj [("title", Json.str "t")]) =
      Except.ok { title := some (Json.str "t"), link := none,
                  snippet := none, displayLink := none } :=
  (C5_item_projection_defaults [("title", Json.str "t")]).2 rfl

/-- C7: the single outbound GET goes to the fixed endpoint with the
parameter dict `buildParams` (the run depends on the transport only
through that one call), and that dict always binds `key`, `cx`, `q`,
`num`, `start` and `safe`. -/
theorem C7_mandatory_params (cfg : Config) (req : SearchRequest) :
    (∀ http http2 : String → List (String × PVal) → HttpResponse,
       http searchUrl (buildParams cfg req) = http2 searchUrl (buildParams cfg req) →
       google_search cfg req http = google_search cfg req http2) ∧
    lookupParam "key" (buildParams cfg req) = some (PVal.s cfg.apiKey) ∧
    lookupParam "cx" (buildParams cfg req) = some (PVal.s cfg.cseId) ∧
    lookupParam "q" (buildParams cfg req) = some (PVal.s req.query) ∧
    lookupParam "num" (buildParams cfg req) = some (PVal.i req.num) ∧
    lookupParam "start" (buildParams cfg req) = some (PVal.i req.start) ∧
    lookupParam "safe" (buildParams cfg req) = some (PVal.s req.safe) := by
  refine ⟨fun http http2 hh => ?_, rfl, rfl, rfl, rfl, rfl, rfl⟩
  unfold google_search
  rw [hh]

/-- Witness for C7: two transports agreeing on the one outbound call give
the same run, and the dict of a concrete request binds `q`. -/
theorem C7_witness :
    google_search ⟨"k", "c"⟩ { query := "q" } (fun _ _ => ⟨200, Json.obj []⟩) =
      google_search ⟨"k", "c"⟩ { query := "q" }
        (fun _ ps => if ps = [] then ⟨500, Json.null⟩ else ⟨200, Json.obj []⟩) ∧
    lookupParam "q" (buildParams ⟨"k", "c"⟩ { query := "q" }) = some (PVal.s "q") :=
  ⟨(C7_mandatory_params ⟨"k", "c"⟩ { query := "q" }).1 _ _ rfl,
   (C7_mandatory_params ⟨"k", "c"⟩ { query := "q" }).2.2.2.1⟩

/-- C9: when either required environment variable is absent, module
initialisation raises, so the process never starts and no request is
accepted. -/
theorem C9_missing_env_refuses_start (env : Env)
    (h : env.googleApiKey = none ∨ env.googleCseId = none) :
    moduleInit env = Except.error StartupError.missingConfig := by
  rcases h with h | h <;> simp [moduleInit, truthyOptStr, h]

/-- Witness for C9: an environment without `GOOGLE_API_KEY` refuses to
start. -/
theorem C9_witness :
    moduleInit ⟨none, some "x"⟩ = Except.error StartupError.missingConfig :=
  C9_missing_env_refuses_start ⟨none, some "x"⟩ (Or.inl rfl)

/-- C10: an optional parameter supplied as the empty string is omitted
from the outbound dict, exactly as if it had not been supplied at all
(the inclusion test is truthiness). -/
theorem C10_empty_string_as_absent (cfg : Config) (req : SearchRequest) :
    (req.lr = some "" → lookupParam "lr" (buildParams cfg req) = none ∧
       buildParams cfg req = buildParams cfg { req with lr := none }) ∧
    (req.gl = some "" → lookupParam "gl" (buildParams cfg req) = none ∧
       buildParams cfg req = buildParams cfg { req with gl := none }) ∧
    (req.cr = some "" → lookupParam "cr" (buildParams cfg req) = none ∧
       buildParams cfg req = buildParams cfg { req with cr := none }) ∧
    (req.siteSearch = some "" → lookupParam "siteSearch" (buildParams cfg req) = none ∧
       buildParams cfg req = buildParams cfg { req with siteSearch := none }) := by
  refine ⟨fun h => ⟨?_, ?_⟩, fun h => ⟨?_, ?_⟩, fun h => ⟨?_, ?_⟩, fun h => ⟨?_, ?_⟩⟩
  · exact lookup_buildParams_lr_omitted cfg req (by rw [h]; rfl)
  · simp [buildParams, baseParams, optEntry, h]
  · exact lookup_buildParams_gl_omitted cfg req (by rw [h]; rfl)
  · simp [buildParams, baseParams, optEntry, h]
  · exact lookup_buildParams_cr_omitted cfg req (by rw [h]; rfl)
  · simp [buildParams, baseParams, optEntry, h]
  · exact lookup_buildParams_site_omitted cfg req (by rw [h]; rfl)
  · simp [buildParams, baseParams, optEntry, h]

/-- Witness for C10: `lr` supplied as `""` is omitted and the dict equals
the one of the same request without `lr`. -/
theorem C10_witness :
    lookupParam "lr" (buildParams ⟨"k", "c"⟩ { query := "q", lr := some "" }) = none ∧
    buildParams ⟨"k", "c"⟩ { query := "q", lr := some "" } =
      buildParams ⟨"k", "c"⟩ { query := "q" } :=
  (C10_empty_string_as_absent ⟨"k", "c"⟩ { query := "q", lr := some "" }).1 rfl

/-- C2 counterexample: `lr` supplied as the empty string is a supplied
optional parameter, yet it is omitted from the outbound dict, so "each
one the caller did supply is included verbatim" fails. -/
theorem C2_counterexample :
    ({ query := "q", lr := some "" } : SearchRequest).lr = some "" ∧
    lookupParam "lr" (buildParams ⟨"k", "c"⟩ { query := "q", lr := some "" }) = none :=
  ⟨rfl, rfl⟩

/-- C2 amended: an optional parameter that is absent or supplied as the
empty string is omitted from the outbound dict; one supplied as a
non-empty string is included verbatim. -/
theorem C2_amended_truthy_params (cfg : Config) (req : SearchRequest) :
    ((req.lr = none ∨ req.lr = some "") →
       lookupParam "lr" (buildParams cfg req) = none) ∧
    (∀ v, req.lr = some v → ¬ v = "" →
       lookupParam "lr" (buildParams cfg req) = some (PVal.s v)) ∧
    ((req.gl = none ∨ req.gl = some "") →
       lookupParam "gl" (buildParams cfg req) = none) ∧
    (∀ v, req.gl = some v → ¬ v = "" →
       lookupParam "gl" (buildParams cfg req) = some (PVal.s v)) ∧
    ((req.cr = none ∨ req.cr = some "") →
       lookupParam "cr" (buildParams cfg req) = none) ∧
    (∀ v, req.cr = some v → ¬ v = "" →
       lookupParam "cr" (buildParams cfg req) = some (PVal.s v)) ∧
    ((req.siteSearch = none ∨ req.siteSearch = some "") →
       lookupParam "siteSearch" (buildParams cfg req) = none) ∧
    (∀ v, req.siteSearch = some v → ¬ v = "" →
       lookupParam "siteSearch" (buildParams cfg req) = some (PVal.s v)) := by
  refine ⟨fun h => ?_, fun v h hv => lookup_buildParams_lr_included cfg req v h hv,
          fun h => ?_, fun v h hv => lookup_buildParams_gl_included cfg req v h hv,
          fun h => ?_, fun v h hv => lookup_buildParams_cr_included cfg req v h hv,
          fun h => ?_, fun v h hv => lookup_buildParams_site_included cfg req v h hv⟩
  · rcases h with h | h <;> exact lookup_buildParams_lr_omitted cfg req (by rw [h]; rfl)
  · rcases h with h | h <;> exact lookup_buildParams_gl_omitted cfg req (by rw [h]; rfl)
  · rcases h with h | h <;> exact lookup_buildParams_cr_omitted cfg req (by rw [h]; rfl)
  · rcases h with h | h <;> exact lookup_buildParams_site_omitted cfg req (by rw [h]; rfl)

/-- Witness for amended C2: a non-empty `lr` is sent verbatim. -/
theorem C2_witness :
    lookupParam "lr" (buildParams ⟨"k", "c"⟩ { query := "q", lr := some "lang_en" }) =
      some (PVal.s "lang_en") :=
  (C2_amended_truthy_params ⟨"k", "c"⟩ { query := "q", lr := some "lang_en" }).2.1
    "lang_en" rfl (by decide)

/-- C3 counterexample: an upstream body whose
`searchInformation.totalResults` is the unparseable string `"abc"` makes
the call raise (`int` fails), refuting "defaults to 0 when unparseable;
never raises". -/
theorem C3_counterexample :
    google_search ⟨"k", "c"⟩ { query := "q" }
      (fun _ _ => ⟨200, Json.obj [("searchInformation",
        Json.obj [("totalResults", Json.str "abc")])]⟩) =
      Except.error SearchError.valueError := rfl

/-- C3 amended: `totalResults` is the integer parse of
`searchInformation.totalResults` when present and parseable, and 0 when
the field (or `searchInformation` itself) is absent; when present but
unparseable the extraction raises `ValueError` instead of defaulting. -/
theorem C3_amended_totalResults (dataFs siFs : List (String × Json)) :
    (dictGet dataFs "searchInformation" = none →
       extractTotalResults dataFs = Except.ok 0) ∧
    (dictGet dataFs "searchInformation" = some (Json.obj siFs) →
       ((dictGet siFs "totalResults" = none →
           extractTotalResults dataFs = Except.ok 0) ∧
        (∀ j n, dictGet siFs "totalResults" = some j → pyInt j = some n →
           extractTotalResults dataFs = Except.ok n) ∧
        (∀ j, dictGet siFs "totalResults" = some j → pyInt j = none →
           extractTotalResults dataFs = Except.error SearchError.valueError))) := by
  refine ⟨fun h => ?_, fun h => ⟨fun h2 => ?_, fun j n hj hn => ?_, fun j hj hn => ?_⟩⟩
  · simp [extractTotalResults, dictGetD, h, pyInt, dictGet, pyIntOfString]
  · simp [extractTotalResults, dictGetD, h, h2, pyInt]
  · simp [extractTotalResults, dictGetD, h, hj, hn]
  · simp [extractTotalResults, dictGetD, h, hj, hn]

/-- Witness for amended C3: upstream `"totalResults": "123"` parses to
123. -/
theorem C3_witness :
    extractTotalResults [("searchInformation",
        Json.obj [("totalResults", Json.str "123")])] = Except.ok 123 :=
  ((C3_amended_totalResults [("searchInformation",
      Json.obj [("totalResults", Json.str "123")])]
      [("totalResults", Json.str "123")]).2 rfl).2.1 (Json.str "123") 123 rfl rfl

/-- C6 counterexample: a 200 JSON object body without `items` on which
`google_search` nevertheless raises, because its
`searchInformation.totalResults` does not parse — refuting the
unconditional "succeeds and returns empty results". -/
theorem C6_counterexample :
    google_search ⟨"k", "c"⟩ { query := "q" }
      (fun _ _ => ⟨200, Json.obj [("searchInformation",
        Json.obj [("totalResults", Json.str "NaN")])]⟩) =
      Except.error SearchError.valueError := rfl

/-- C6 amended: on a 2xx answer whose body is a JSON object without an
`items` key, and whose `totalResults` extraction succeeds, the call
returns a response with the empty result sequence. -/
theorem C6_amended_empty_items (cfg : Config) (req : SearchRequest)
    (http : String → List (String × PVal) → HttpResponse)
    (dataFs : List (String × Json)) (tr : Int)
    (hst : 200 ≤ (http searchUrl (buildParams cfg req)).status ∧
           (http searchUrl (buildParams cfg req)).status < 300)
    (hbody : (http searchUrl (buildParams cfg req)).body = Json.obj dataFs)
    (hitems : dictGet dataFs "items" = none)
    (htr : extractTotalResults dataFs = Except.ok tr) :
    google_search cfg req http =
      Except.ok { query := req.query, totalResults := tr, results := [],
                  nextStart := if (0 : Int) = req.num
                               then some (req.start + req.num) else none } := by
  unfold google_search handleResponse
  rw [if_pos hst, hbody]
  simp only [dictGetD, hitems, Option.getD, mapProject, htr, List.length_nil, Nat.cast_zero]

/-- Witness for amended C6: an empty 200 JSON object body yields the
empty result sequence. -/
theorem C6_witness :
    google_search ⟨"k", "c"⟩ { query := "q" } (fun _ _ => ⟨200, Json.obj []⟩) =
      Except.ok { query := "q", totalResults := 0, results := [], nextStart := none } :=
  C6_amended_empty_items ⟨"k", "c"⟩ { query := "q" } (fun _ _ => ⟨200, Json.obj []⟩)
    [] 0 (by norm_num) rfl rfl rfl

/-- C8: every successful execution returns exactly one result per
upstream item, in upstream order: result `i` is the projection of item
`i`. -/
theorem C8_results_in_order (cfg : Config) (req : SearchRequest)
    (http : String → List (String × PVal) → HttpResponse) (resp : SearchResponse)
    (h : google_search cfg req http = Except.ok resp) :
    ∃ dataFs itemsList,
      (http searchUrl (buildParams cfg req)).body = Json.obj dataFs ∧
      dictGetD dataFs "items" (Json.arr []) = Json.arr itemsList ∧
      resp.results.length = itemsList.length ∧
      ∀ (i : Nat) (hi : i < itemsList.length) (hi2 : i < resp.results.length),
        projectItem (itemsList.get ⟨i, hi⟩) = Except.ok (resp.results.get ⟨i, hi2⟩) := by
  unfold google_search at h
  obtain ⟨-, dataFs, itemsList, results, tr, hbody, hitems, hmap, -, hresp⟩ :=
    handleResponse_ok req _ resp h
  subst hresp
  exact ⟨dataFs, itemsList, hbody, hitems, mapProject_ok_length _ _ hmap,
    mapProject_ok_get _ _ hmap⟩

/-- Witness for C8: a two-item upstream answer maps positionwise onto the
two returned results. -/
theorem C8_witness :
    ∃ (dataFs : List (String × Json)) (itemsList : List Json),
      Json.obj [("items", Json.arr [Json.obj [("link", Json.str "l1")], Json.obj []])] =
        Json.obj dataFs ∧
      dictGetD dataFs "items" (Json.arr []) = Json.arr itemsList ∧
      ([⟨none, some (Json.str "l1"), none, none⟩,
        ⟨none, none, none, none⟩] : List SearchResultItem).length = itemsList.length ∧
      ∀ (i : Nat) (hi : i < itemsList.length)
        (hi2 : i < ([⟨none, some (Json.str "l1"), none, none⟩,
                     ⟨none, none, none, none⟩] : List SearchResultItem).length),
        projectItem (itemsList.get ⟨i, hi⟩) =
          Except.ok (([⟨none, some (Json.str "l1"), none, none⟩,
                       ⟨none, none, none, none⟩] : List SearchResultItem).get ⟨i, hi2⟩) :=
  C8_results_in_order ⟨"k", "c"⟩ { query := "w", num := 2 }
    (fun _ _ => ⟨200, Json.obj [("items",
      Json.arr [Json.obj [("link", Json.str "l1")], Json.obj []])]⟩)
    { query := "w", totalResults := 0,
      results := [⟨none, some (Json.str "l1"), none, none⟩, ⟨none, none, none, none⟩],
      nextStart := some 3 }
    rfl
